import Mathlib

/-!
Verification of the credential and session-lifecycle subsystem of the
Courses-backend repository.

The embedding follows the source:
* `api/api.d.ts` — `UserRepository`, `RefreshTokenRepository`, `CacheService`,
  `BaseRepository` (`findById`, `findByEmail`, `findByToken`,
  `invalidateToken`, `create`);
* `unnamed/part_001` — `AuthService` (`register`, `login`, `refreshToken`,
  `logout`, `validatePassword`, `generateTokens`) and
  `UserService.getUserById`;
* `unnamed/part_002` — `SecurityConfig` brute-force counters
  (`checkBruteForceAttempts`, `recordFailedAttempt`, `clearFailedAttempts`,
  `getAttemptCount`);
* `api/api.js` — the passport JWT strategy callback and
  `RBACMiddleware.checkRole`.

User ids (uuidv4, random) are modelled as draws from a per-state counter;
timestamps are integers (milliseconds since the epoch); the bcrypt hash is
modelled as an injective tagging function, which captures exactly the
verify/hash contract the code relies on. Refresh token values are NOT
modelled as fresh: jsonwebtoken's HS256 signing is deterministic, so the
signed string is a function of the payload claims and the whole-second `iat`
timestamp the library stamps in — two signings for the same identity within
the same wall-clock second yield the byte-identical string, and the model
keeps that behaviour.
-/

namespace CoursesBackend

/-- Error outcomes of the auth flows, one per distinct `throw new Error`
message in `AuthService` (plus the storage-level unique-constraint failure of
`BaseRepository.create` and the `AccountLockedOut` outcome named by the spec,
which the code never produces). -/
inductive AuthError where
  /-- Message 'User already exists with this email' (spec: `DuplicateCredential`). -/
  | userExists
  /-- Message 'Password must be at least 8 characters long' (spec: `WeakCredential`). -/
  | weakPassword
  /-- Message 'Invalid credentials' (spec: `InvalidCredential`). -/
  | invalidCredentials
  /-- Message 'Account is blocked' (spec: `AccountBlocked`). -/
  | accountBlocked
  /-- Message 'Invalid refresh token' (spec: `TokenInvalid`). -/
  | invalidRefreshToken
  /-- Message 'Refresh token expired' (spec: `TokenExpired`). -/
  | refreshTokenExpired
  /-- Message 'User not found'. -/
  | userNotFound
  /-- Storage unique-constraint violation surfaced by `BaseRepository.create`. -/
  | createConflict
  /-- Spec error kind `AccountLockedOut`; no code path produces it. -/
  | accountLockedOut
  deriving Repr, DecidableEq

/-- A row of the `users` table (`api.d.ts`, interface `User`), restricted to
the fields the auth flows read or write. -/
structure User where
  id : Nat
  name : String
  email : String
  passwordHash : String
  phoneNumber : String
  role : String
  isBlocked : Bool
  deletedAt : Option Int
  deriving Repr, DecidableEq

/-- The output of `jwt.sign` under the refresh secret (`part_001:715`):
HS256 signing is deterministic, so the signed string is determined by the
payload claims `{id, email, role}` together with the whole-second `iat`
timestamp jsonwebtoken adds (`exp` is `iat` plus the lifetime, also
determined). Two signings with the same payload in the same second produce
the byte-identical string, which this structure's equality reflects. -/
structure SignedToken where
  userId : Nat
  email : String
  role : String
  iatSec : Int
  deriving Repr, DecidableEq

/-- `jwt.sign` of the refresh payload of `user` at wall-clock time `now`
(milliseconds): `iat` is the current time in whole seconds. -/
def signRefreshToken (u : User) (now : Int) : SignedToken :=
  ⟨u.id, u.email, u.role, now / 1000⟩

/-- A row of the `refresh_tokens` table (`api.d.ts`, interface
`RefreshToken`). -/
structure RefreshTokenRec where
  userId : Nat
  token : SignedToken
  expiresAt : Int
  createdAt : Int
  deriving Repr, DecidableEq

/-- The state an `AuthService` call sees and updates: the two tables, a
counter standing for uuidv4 user-id generation, and the current wall-clock
time (`new Date()`). -/
structure AuthState where
  users : List User
  tokens : List RefreshTokenRec
  nextId : Nat
  now : Int
  deriving Repr, DecidableEq

/-- `UserRepository.findByEmail` (`api.d.ts:656`): exact match on the email
column, excluding soft-deleted rows. -/
def findByEmail (users : List User) (email : String) : Option User :=
  users.find? (fun u => u.email == email && u.deletedAt.isNone)

/-- `BaseRepository.findById` with the default `includeDeleted = false`
(`api.d.ts:539`). -/
def findById (users : List User) (id : Nat) : Option User :=
  users.find? (fun u => u.id == id && u.deletedAt.isNone)

/-- `RefreshTokenRepository.findByToken` (`api.d.ts:840`): match on the token
column only — no revoked or soft-delete filter exists. -/
def findByToken (tokens : List RefreshTokenRec) (v : SignedToken) : Option RefreshTokenRec :=
  tokens.find? (fun r => r.token == v)

/-- `RefreshTokenRepository.invalidateToken` (`api.d.ts:853`): a SQL `DELETE`
of every row whose token column equals the value. -/
def invalidateToken (tokens : List RefreshTokenRec) (v : SignedToken) : List RefreshTokenRec :=
  tokens.filter (fun r => r.token != v)

/-- `AuthService.validatePassword` (`part_001:700`): length at least 8. -/
def validatePassword (p : String) : Bool :=
  decide (p.length ≥ 8)

/-- bcrypt.hash, modelled as an injective tag. -/
def hashPassword (p : String) : String :=
  "bcrypt$" ++ p

/-- bcrypt.compare: succeeds exactly when the plaintext hashes to the stored
hash. -/
def verifyPassword (p h : String) : Bool :=
  hashPassword p == h

/-- The 7-day refresh lifetime of `generateTokens` (`part_001:721`),
in milliseconds. -/
def refreshLifetimeMs : Int := 7 * 86400000

/-- What `generateTokens` returns, reduced to the fields the claims mention:
the owning identity and the signed refresh value now on record. -/
structure TokenPair where
  userId : Nat
  refreshValue : SignedToken
  deriving Repr, DecidableEq

/-- `AuthService.generateTokens` (`part_001:704`): sign the refresh value
for the user at the current second, store one `refresh_tokens` row expiring
7 days from now, return the pair. -/
def generateTokens (s : AuthState) (u : User) : TokenPair × AuthState :=
  let v := signRefreshToken u s.now
  (⟨u.id, v⟩,
   { s with tokens := s.tokens ++ [⟨u.id, v, s.now + refreshLifetimeMs, s.now⟩] })

/-- `AuthService.register` (`part_001:602`): duplicate-email lookup, then the
local password check, then `BaseRepository.create` (which can still hit the
`users.email` unique constraint on a soft-deleted row), then token issuance. -/
def registerOp (name email password phone role : String) (s : AuthState) :
    Except AuthError TokenPair × AuthState :=
  match findByEmail s.users email with
  | some _ => (.error .userExists, s)
  | none =>
    if !validatePassword password then
      (.error .weakPassword, s)
    else if s.users.any (fun u => u.email == email) then
      (.error .createConflict, s)
    else
      let u : User :=
        ⟨s.nextId, name, email, hashPassword password, phone, role, false, none⟩
      let s1 := { s with users := s.users ++ [u], nextId := s.nextId + 1 }
      let ts := generateTokens s1 u
      (.ok ts.1, ts.2)

/-- `AuthService.login` (`part_001:647`): find the user, reject blocked
accounts, verify the password, issue tokens. No throttle is consulted. -/
def loginOp (email password : String) (s : AuthState) :
    Except AuthError TokenPair × AuthState :=
  match findByEmail s.users email with
  | none => (.error .invalidCredentials, s)
  | some u =>
    if u.isBlocked then
      (.error .accountBlocked, s)
    else if !verifyPassword password u.passwordHash then
      (.error .invalidCredentials, s)
    else
      let ts := generateTokens s u
      (.ok ts.1, ts.2)

/-- `AuthService.refreshToken` (`part_001:671`): look the value up, delete it
and fail if expired, look the owner up (no blocked check), delete the old row,
issue a fresh pair. -/
def refreshTokenOp (v : SignedToken) (s : AuthState) :
    Except AuthError TokenPair × AuthState :=
  match findByToken s.tokens v with
  | none => (.error .invalidRefreshToken, s)
  | some r =>
    if r.expiresAt < s.now then
      (.error .refreshTokenExpired, { s with tokens := invalidateToken s.tokens v })
    else
      match findById s.users r.userId with
      | none => (.error .userNotFound, s)
      | some u =>
        let s1 := { s with tokens := invalidateToken s.tokens v }
        let ts := generateTokens s1 u
        (.ok ts.1, ts.2)

/-- `AuthService.logout` (`part_001:696`): delete the row and acknowledge. -/
def logoutOp (v : SignedToken) (s : AuthState) : Except AuthError Bool × AuthState :=
  (.ok true, { s with tokens := invalidateToken s.tokens v })

/-- One sequential `AuthService` call, as alphabet for execution traces. -/
inductive AuthOp where
  | register (name email password phone role : String)
  | login (email password : String)
  | refresh (v : SignedToken)
  | logout (v : SignedToken)
  deriving Repr, DecidableEq

/-- The state transformation of one call (its result forgotten). -/
def stepOp (op : AuthOp) (s : AuthState) : AuthState :=
  match op with
  | .register n e p ph r => (registerOp n e p ph r s).2
  | .login e p => (loginOp e p s).2
  | .refresh v => (refreshTokenOp v s).2
  | .logout v => (logoutOp v s).2

/-- Run a sequential trace; each entry carries the wall-clock time at which
the call executes. -/
def runOps (ops : List (Int × AuthOp)) (s : AuthState) : AuthState :=
  ops.foldl (fun st p => stepOp p.2 { st with now := p.1 }) s

/-- Some row stores the token value `v`. -/
def storedToken (s : AuthState) (v : SignedToken) : Prop :=
  ∃ r ∈ s.tokens, r.token = v

instance (s : AuthState) (v : SignedToken) : Decidable (storedToken s v) := by
  unfold storedToken; infer_instance

/-! ### SecurityConfig brute-force counters (`part_002:323-367`) -/

/-- One value of the in-memory `attemptCounts` map. -/
structure AttemptRec where
  count : Nat
  timestamp : Int
  deriving Repr, DecidableEq

/-- The `attemptCounts` map, keyed by identifier. -/
abbrev AttemptMap := List (String × AttemptRec)

/-- `SecurityConfig.LOCKOUT_DURATION`: 15 minutes in milliseconds. -/
def LOCKOUT_DURATION : Int := 15 * 60 * 1000

/-- `SecurityConfig.MAX_LOGIN_ATTEMPTS`. -/
def MAX_LOGIN_ATTEMPTS : Nat := 5

/-- Map lookup in `attemptCounts`. -/
def attemptLookup (m : AttemptMap) (id : String) : Option AttemptRec :=
  (m.find? (fun kv => kv.1 == id)).map (·.2)

/-- `Map.set` on `attemptCounts`: replace any record under the key. -/
def attemptSet (m : AttemptMap) (id : String) (rec : AttemptRec) : AttemptMap :=
  m.filter (fun kv => kv.1 != id) ++ [(id, rec)]

/-- `SecurityConfig.getAttemptCount` (`part_002:344`): the stored count, read
as zero once `now - record.timestamp > LOCKOUT_DURATION`. -/
def getAttemptCount (m : AttemptMap) (id : String) (now : Int) : Nat :=
  match attemptLookup m id with
  | none => 0
  | some rec => if now - rec.timestamp > LOCKOUT_DURATION then 0 else rec.count

/-- `SecurityConfig.recordFailedAttempt` / `incrementAttemptCount`
(`part_002:332,357`): store the incremented count with a fresh timestamp. -/
def recordFailedAttempt (m : AttemptMap) (id : String) (now : Int) : AttemptMap :=
  attemptSet m id ⟨getAttemptCount m id now + 1, now⟩

/-- `SecurityConfig.clearFailedAttempts` / `resetAttemptCount`
(`part_002:337,365`). -/
def clearFailedAttempts (m : AttemptMap) (id : String) : AttemptMap :=
  m.filter (fun kv => kv.1 != id)

/-- `SecurityConfig.checkBruteForceAttempts` (`part_002:324`): locked out once
the live count reaches `maxAttempts`. Defined but never called by any login
path in the repository. -/
def checkBruteForceAttempts (m : AttemptMap) (id : String) (now : Int)
    (maxAttempts : Nat) : Bool :=
  decide (getAttemptCount m id now ≥ maxAttempts)

/-! ### JWT strategy and RBAC middleware (`api/api.js:103-120, 728-742`) -/

/-- The `req.user` object the passport strategy attaches on success. -/
structure ReqUser where
  id : Nat
  email : String
  role : String
  deriving Repr, DecidableEq

/-- The passport `JwtStrategy` verify callback (`api.js:106-119`):
`userRepo.findById(payload.id)` (which excludes soft-deleted rows), then
accept only non-blocked users; everything else resolves to no identity. -/
def resolveJwtUser (users : List User) (payloadId : Nat) : Option ReqUser :=
  match findById users payloadId with
  | some u => if !u.isBlocked then some ⟨u.id, u.email, u.role⟩ else none
  | none => none

/-- Outcome of `RBACMiddleware.checkRole`'s returned middleware. -/
inductive AccessDecision where
  /-- HTTP 401 'Authentication required'. -/
  | unauthenticated
  /-- HTTP 403 'Insufficient permissions'. -/
  | forbidden
  /-- `next()` was called. -/
  | allowed
  deriving Repr, DecidableEq

/-- `RBACMiddleware.checkRole(roles)` (`api.js:729-741`): 401 when no resolved
user, 403 when `!roles.includes(req.user.role)`, otherwise pass through. -/
def checkRole (roles : List String) (user : Option ReqUser) : AccessDecision :=
  match user with
  | none => .unauthenticated
  | some u => if roles.contains u.role then .allowed else .forbidden

/-! ### Identity cache and `UserService.getUserById` (`part_001:764-791`) -/

/-- What `UserService.getUserById` returns: the `UserDTO` projection, which
(unlike the cache write) omits the password hash. -/
structure UserDTO where
  id : Nat
  name : String
  email : String
  role : String
  isBlocked : Bool
  deriving Repr, DecidableEq

/-- The `new UserDTO(...)` construction of `part_001:776-790`. -/
def toUserDTO (u : User) : UserDTO :=
  ⟨u.id, u.name, u.email, u.role, u.isBlocked⟩

/-- The redis-backed identity cache restricted to the `user:{id}` keys:
whatever JSON value `cacheService.set` serialised under the key. -/
abbrev UserCache := List (Nat × User)

/-- `cacheService.get` on a `user:{id}` key. -/
def cacheGet (c : UserCache) (id : Nat) : Option User :=
  (c.find? (fun kv => kv.1 == id)).map (·.2)

/-- `cacheService.set` on a `user:{id}` key (redis SETEX overwrites). -/
def cacheSet (c : UserCache) (id : Nat) (u : User) : UserCache :=
  c.filter (fun kv => kv.1 != id) ++ [(id, u)]

/-- `cacheService.del` on a `user:{id}` key. -/
def cacheDel (c : UserCache) (id : Nat) : UserCache :=
  c.filter (fun kv => kv.1 != id)

/-- `UserService.getUserById` (`part_001:764`): serve from cache, else read
the store, cache the row read (`cacheService.set(cacheKey, user, 3600)`), and
return the DTO. -/
def getUserById (users : List User) (c : UserCache) (id : Nat) :
    Except AuthError (UserDTO × UserCache) :=
  match cacheGet c id with
  | some u => .ok (toUserDTO u, c)
  | none =>
    match findById users id with
    | none => .error .userNotFound
    | some u => .ok (toUserDTO u, cacheSet c id u)

/-! ### Concrete states used by witnesses and counterexamples -/

/-- An active, unblocked identity. -/
def exUser : User :=
  ⟨1, "Alice", "alice@x.com", hashPassword "Password1!", "0100200300", "admin", false, none⟩

/-- The refresh value signed for `exUser` during wall-clock second 0. -/
def exTok : SignedToken :=
  signRefreshToken exUser 0

/-- State holding `exUser` and one unexpired refresh token of value `exTok`,
observed at time 1500 ms — a later second than `exTok`'s issuance second. -/
def exState : AuthState :=
  ⟨[exUser], [⟨1, exTok, 2000000, 0⟩], 2, 1500⟩

/-- State holding `exUser` and the token `exTok`, observed at time 500 ms —
still inside `exTok`'s issuance second 0, so a rotation re-signs the
byte-identical value. -/
def replayState : AuthState :=
  ⟨[exUser], [⟨1, exTok, 604800000, 0⟩], 2, 500⟩

/-- The identity of the lockout scenario, with the correct password
`C0rrect!pw` on file. -/
def lockUser : User :=
  ⟨1, "Dan", "user@example.com", hashPassword "C0rrect!pw", "0100200300", "student", false, none⟩

/-- State holding only `lockUser`. -/
def lockState : AuthState :=
  ⟨[lockUser], [], 2, 100000⟩

/-- `attemptCounts` after `MAX_LOGIN_ATTEMPTS` failures recorded at time
100000, the current time of `lockState` — the lockout window is open. -/
def lockAttempts : AttemptMap :=
  [("user@example.com", ⟨5, 100000⟩)]

/-- A blocked (but not soft-deleted) identity. -/
def blockedUser : User :=
  ⟨1, "Carol", "carol@x.com", hashPassword "Password1!", "0100200300", "student", true, none⟩

/-- The refresh value signed for `blockedUser` during wall-clock second 0. -/
def blockedTok : SignedToken :=
  signRefreshToken blockedUser 0

/-- State where `blockedUser` owns the unexpired refresh token `blockedTok`,
observed at time 1500 ms. -/
def blockedState : AuthState :=
  ⟨[blockedUser], [⟨1, blockedTok, 1000000, 0⟩], 2, 1500⟩

/-- An empty store for the double-registration scenario. -/
def emptyState : AuthState :=
  ⟨[], [], 1, 0⟩

/-- An identity whose email `taken@x.com` is already registered. -/
def takenUser : User :=
  ⟨1, "Eve", "taken@x.com", hashPassword "Longpass1!", "0100200300", "student", false, none⟩

/-- State holding `takenUser`. -/
def takenState : AuthState :=
  ⟨[takenUser], [], 2, 0⟩

/-! ### Helper lemmas -/

/-- Looking a key up right after a `Map.set`-style write finds exactly the
written pair. -/
theorem find?_filter_append {α β : Type} [BEq α] [LawfulBEq α]
    (l : List (α × β)) (k : α) (v : β) :
    ((l.filter (fun kv => kv.1 != k)) ++ [(k, v)]).find? (fun kv => kv.1 == k)
      = some (k, v) := by
  rw [List.find?_append]
  have h1 : (l.filter (fun kv => kv.1 != k)).find? (fun kv => kv.1 == k) = none := by
    rw [List.find?_eq_none]
    intro kv hkv
    have := (List.mem_filter.mp hkv).2
    simp_all
  rw [h1]
  simp

/-- `invalidateToken` is idempotent on the token table. -/
theorem invalidateToken_idem (l : List RefreshTokenRec) (v : SignedToken) :
    invalidateToken (invalidateToken l v) v = invalidateToken l v := by
  simp [invalidateToken, List.filter_filter]

/-- A row of the table after `invalidateToken` was a row before it. -/
theorem mem_of_mem_invalidateToken {l : List RefreshTokenRec} {v : SignedToken}
    {r : RefreshTokenRec} (h : r ∈ invalidateToken l v) : r ∈ l :=
  (List.mem_filter.mp h).1

/-- Rows surviving `invalidateToken` carry a different value. -/
theorem token_ne_of_mem_invalidateToken {l : List RefreshTokenRec} {v : SignedToken}
    {r : RefreshTokenRec} (h : r ∈ invalidateToken l v) : r.token ≠ v := by
  have := (List.mem_filter.mp h).2
  simp_all [invalidateToken]

/-! ### C5 — RoleGuard -/

/-- C5: `RBACMiddleware.checkRole` resolves a present identity to `allowed`
exactly when its role is a member of the required role list, and in
particular denies `student` against `{admin, hr}` and allows `admin`
against `{admin, hr}`. -/
theorem roleGuard_allows_iff_member (roles : List String) (u : ReqUser) :
    (checkRole roles (some u) = .allowed ↔ u.role ∈ roles)
    ∧ checkRole ["admin", "hr"] (some ⟨1, "s@x.com", "student"⟩) = .forbidden
    ∧ checkRole ["admin", "hr"] (some ⟨2, "a@x.com", "admin"⟩) = .allowed := by
  refine ⟨?_, by decide, by decide⟩
  by_cases h : u.role ∈ roles
  · simp [checkRole, h]
  · simp [checkRole, h]

/-! ### C7 — logout always succeeds and is idempotent -/

/-- C7: for every token value and every prior state, `AuthService.logout`
acknowledges with success, and running it twice leaves the token store — and
the whole state — exactly as running it once. -/
theorem logout_succeeds_and_idempotent (v : SignedToken) (s : AuthState) :
    (logoutOp v s).1 = .ok true
    ∧ (logoutOp v (logoutOp v s).2).2 = (logoutOp v s).2 := by
  refine ⟨rfl, ?_⟩
  simp [logoutOp, invalidateToken_idem]

/-! ### C8 — access-token resolution excludes blocked and soft-deleted
identities -/

/-- C8: whenever the JWT strategy callback attaches a `req.user`, the row it
resolved is present, not soft-deleted, not blocked, and is the identity
handed to the role check — so no blocked or soft-deleted identity ever
reaches `RBACMiddleware.checkRole`. -/
theorem jwt_resolution_excludes_blocked_deleted (users : List User)
    (pid : Nat) (ru : ReqUser) (h : resolveJwtUser users pid = some ru) :
    ∃ u, u ∈ users ∧ u.id = pid ∧ u.deletedAt = none ∧ u.isBlocked = false
      ∧ ru = ⟨u.id, u.email, u.role⟩ := by
  unfold resolveJwtUser at h
  cases hf : findById users pid with
  | none => rw [hf] at h; exact absurd h (by simp)
  | some u =>
    rw [hf] at h
    have hmem : u ∈ users := List.mem_of_find?_eq_some hf
    have hpred := List.find?_some hf
    have hid : u.id = pid := by
      have := (Bool.and_eq_true _ _).mp hpred |>.1
      simpa using this
    have hdel : u.deletedAt = none := by
      have := (Bool.and_eq_true _ _).mp hpred |>.2
      simpa [Option.isNone_iff_eq_none] using this
    cases hb : u.isBlocked with
    | true => simp [hb] at h
    | false =>
      simp [hb] at h
      exact ⟨u, hmem, hid, hdel, hb, h.symm⟩

/-- Witness for C8 at a concrete store: resolving `exUser`'s id yields
exactly the active, unblocked `exUser` projection. -/
theorem jwt_resolution_excludes_blocked_deleted_witness :
    exUser.deletedAt = none ∧ exUser.isBlocked = false
      ∧ resolveJwtUser [exUser] 1 = some ⟨1, "alice@x.com", "admin"⟩ := by
  refine ⟨rfl, rfl, ?_⟩
  have h := jwt_resolution_excludes_blocked_deleted [exUser] 1
    ⟨1, "alice@x.com", "admin"⟩ rfl
  exact rfl

/-! ### C9 — what the identity cache holds -/

/-- Counterexample to C9: on a cache miss `UserService.getUserById` writes
the *entire* user row under `user:{id}` — the entry the cache then holds
carries `exUser`'s bcrypt password hash, not a hash-free summary. -/
theorem cache_entry_contains_hash_counterexample :
    getUserById [exUser] [] 1 = .ok (toUserDTO exUser, [(1, exUser)])
    ∧ (cacheGet [(1, exUser)] 1).map User.passwordHash = some "bcrypt$Password1!"
    ∧ exUser.passwordHash ≠ "" := by
  refine ⟨rfl, rfl, by decide⟩

/-- C9 as amended: the value `getUserById` writes to the identity cache on a
miss is the full identity record, password hash included — not a summary
restricted to (id, role, blocked, deletedAt); only the returned DTO omits
the hash. -/
theorem cache_stores_full_record (users : List User) (c : UserCache)
    (id : Nat) (u : User) (hmiss : cacheGet c id = none)
    (hfind : findById users id = some u) :
    getUserById users c id = .ok (toUserDTO u, cacheSet c id u)
    ∧ cacheGet (cacheSet c id u) id = some u := by
  constructor
  · simp [getUserById, hmiss, hfind]
  · simp [cacheGet, cacheSet, find?_filter_append]

/-- Witness for the amended C9: caching `lockUser` from an empty cache stores
the full record, hash and all. -/
theorem cache_stores_full_record_witness :
    getUserById [lockUser] [] 1 = .ok (toUserDTO lockUser, cacheSet [] 1 lockUser)
    ∧ cacheGet (cacheSet [] 1 lockUser) 1 = some lockUser :=
  cache_stores_full_record [lockUser] [] 1 lockUser rfl rfl

/-! ### C3 — refresh does not re-check the blocked flag -/

/-- Counterexample to C3: `blockedUser` is blocked and owns the unexpired
refresh token 7, yet `AuthService.refreshToken` succeeds and mints a new pair
instead of failing `AccountBlocked` — the flow never reads `isBlocked`. -/
theorem refresh_of_blocked_counterexample :
    blockedUser.isBlocked = true
    ∧ (refreshTokenOp blockedTok blockedState).1
        = .ok ⟨1, signRefreshToken blockedUser 1500⟩
    ∧ (refreshTokenOp blockedTok blockedState).1 ≠ .error .accountBlocked
    ∧ (refreshTokenOp blockedTok blockedState).2.tokens
        = [⟨1, signRefreshToken blockedUser 1500, 1500 + refreshLifetimeMs, 1500⟩] := by
  refine ⟨rfl, rfl, ?_, rfl⟩
  intro hx
  exact Except.noConfusion
    ((rfl : (refreshTokenOp blockedTok blockedState).1
        = Except.ok (⟨1, signRefreshToken blockedUser 1500⟩ : TokenPair)).symm.trans hx)

/-- C3 as amended: when a stored, unexpired refresh token's owner is found
(not soft-deleted), `refreshToken` succeeds and issues a new pair even if the
owner is blocked — the blocked flag is enforced only at login and at
access-token verification, not at refresh. -/
theorem refresh_ignores_blocked (s : AuthState) (v : SignedToken)
    (r : RefreshTokenRec) (u : User)
    (hr : findByToken s.tokens v = some r)
    (hexp : ¬ r.expiresAt < s.now)
    (hu : findById s.users r.userId = some u)
    (_hb : u.isBlocked = true) :
    (refreshTokenOp v s).1 = .ok ⟨u.id, signRefreshToken u s.now⟩ := by
  simp [refreshTokenOp, hr, hexp, hu, generateTokens]

/-- Witness for the amended C3 at the concrete blocked scenario. -/
theorem refresh_ignores_blocked_witness :
    (refreshTokenOp blockedTok blockedState).1
      = .ok ⟨1, signRefreshToken blockedUser 1500⟩ :=
  refresh_ignores_blocked blockedState blockedTok ⟨1, blockedTok, 1000000, 0⟩
    blockedUser rfl (by decide) rfl rfl

/-! ### C6 — order of the duplicate check and the password check in
register -/

/-- Counterexample to C6: `short` violates the password policy and
`taken@x.com` is already registered, yet `AuthService.register` reports the
duplicate (`'User already exists with this email'`), not `WeakCredential`,
because the `findByEmail` lookup runs before `validatePassword`. -/
theorem register_order_counterexample :
    validatePassword "short" = false
    ∧ registerOp "Mallory" "taken@x.com" "short" "0100200300" "student" takenState
        = (.error .userExists, takenState) := by
  exact ⟨by decide, rfl⟩

/-- C6 as amended: `register` consults the credential store for a duplicate
email first and only then validates the password; a policy-violating password
on a free email fails `WeakCredential` with no identity created, while a
taken email is reported `DuplicateCredential` even when the password is also
weak. -/
theorem register_checks_duplicate_before_password (s : AuthState)
    (n e p ph ro : String) :
    (findByEmail s.users e = none → p.length < 8 →
      registerOp n e p ph ro s = (.error .weakPassword, s))
    ∧ (∀ u, findByEmail s.users e = some u →
      registerOp n e p ph ro s = (.error .userExists, s)) := by
  constructor
  · intro hf hlen
    have hv : validatePassword p = false := by
      simp [validatePassword]
      omega
    simp [registerOp, hf, hv]
  · intro u hf
    simp [registerOp, hf]

/-- Witness for the amended C6: a weak password on a fresh email fails
`WeakCredential` and leaves the store untouched; the taken email fails
`DuplicateCredential`. -/
theorem register_checks_duplicate_before_password_witness :
    registerOp "Mallory" "new@x.com" "short" "0100200300" "student" takenState
        = (.error .weakPassword, takenState)
    ∧ registerOp "Mallory" "taken@x.com" "Longpass1!" "0100200300" "student"
        takenState = (.error .userExists, takenState) :=
  ⟨(register_checks_duplicate_before_password takenState
      "Mallory" "new@x.com" "short" "0100200300" "student").1 rfl (by decide),
   (register_checks_duplicate_before_password takenState
      "Mallory" "taken@x.com" "Longpass1!" "0100200300" "student").2
      takenUser rfl⟩

/-! ### C4 — duplicate registration and case normalization -/

/-- Counterexample to C4: `Alice@x.com` and `alice@x.com` are equal after
case normalization, the first registration succeeds and is not soft-deleted,
yet the second registration also succeeds and creates a second identity —
the duplicate check compares raw strings, with no case normalization. -/
theorem register_case_normalization_counterexample :
    "Alice@x.com".data.map Char.toLower = "alice@x.com".data.map Char.toLower
    ∧ (registerOp "Alice" "Alice@x.com" "Password1!" "0100200300" "student"
        emptyState).1 = .ok ⟨1, ⟨1, "Alice@x.com", "student", 0⟩⟩
    ∧ (registerOp "Bob" "alice@x.com" "Password1!" "0100200300" "student"
        (registerOp "Alice" "Alice@x.com" "Password1!" "0100200300" "student"
          emptyState).2).1 = .ok ⟨2, ⟨2, "alice@x.com", "student", 0⟩⟩
    ∧ (registerOp "Bob" "alice@x.com" "Password1!" "0100200300" "student"
        (registerOp "Alice" "Alice@x.com" "Password1!" "0100200300" "student"
          emptyState).2).2.users.length = 2 := by
  exact ⟨by decide, rfl, rfl, rfl⟩

/-- C4 as amended: the duplicate check uses exact string equality of the
email. After a successful registration of email `e` (an identity that is not
soft-deleted), a second registration supplying the byte-identical `e` fails
`DuplicateCredential` and creates no identity; emails differing only in case
are treated as distinct. -/
theorem register_exact_duplicate_fails (s : AuthState)
    (n1 e p1 ph1 r1 n2 p2 ph2 r2 : String) (out : TokenPair) (s1 : AuthState)
    (h : registerOp n1 e p1 ph1 r1 s = (.ok out, s1)) :
    registerOp n2 e p2 ph2 r2 s1 = (.error .userExists, s1) := by
  unfold registerOp at h
  cases hf : findByEmail s.users e with
  | some u => rw [hf] at h; simp at h
  | none =>
    rw [hf] at h
    cases hv : validatePassword p1 with
    | false => simp [hv] at h
    | true =>
      simp only [hv, Bool.not_true, Bool.false_eq_true, if_false] at h
      cases ha : s.users.any (fun u => u.email == e) with
      | true => simp [ha] at h
      | false =>
        simp only [ha, Bool.false_eq_true, if_false, generateTokens] at h
        have hs1 : s1.users
            = s.users ++ [⟨s.nextId, n1, e, hashPassword p1, ph1, r1, false, none⟩] := by
          have := congrArg Prod.snd h
          simp at this
          rw [← this]
        have hfind : findByEmail s1.users e
            = some ⟨s.nextId, n1, e, hashPassword p1, ph1, r1, false, none⟩ := by
          rw [hs1]
          unfold findByEmail
          rw [List.find?_append]
          unfold findByEmail at hf
          rw [hf]
          simp
        unfold registerOp
        rw [hfind]

/-- Witness for the amended C4: registering `alice@x.com` twice with
byte-identical spelling — the second call fails `DuplicateCredential` and
leaves the store as it was after the first. -/
theorem register_exact_duplicate_fails_witness :
    registerOp "Bob" "alice2@x.com" "Password2!" "0100200300" "student"
        (registerOp "Alice" "alice2@x.com" "Password1!" "0100200300" "student"
          emptyState).2
      = (.error .userExists,
         (registerOp "Alice" "alice2@x.com" "Password1!" "0100200300" "student"
           emptyState).2) :=
  register_exact_duplicate_fails emptyState
    "Alice" "alice2@x.com" "Password1!" "0100200300" "student"
    "Bob" "Password2!" "0100200300" "student"
    ⟨1, ⟨1, "alice2@x.com", "student", 0⟩⟩
    (registerOp "Alice" "alice2@x.com" "Password1!" "0100200300" "student"
      emptyState).2
    rfl

/-! ### C2 — the lockout counters are never consulted by login -/

/-- Counterexample to C2: `SecurityConfig`'s own counter reports
`user@example.com` locked out (5 failures inside the window), yet the next
`AuthService.login` with the correct password succeeds — no login path calls
`checkBruteForceAttempts`, so no attempt ever fails `AccountLockedOut`. -/
theorem lockout_not_enforced_counterexample :
    checkBruteForceAttempts lockAttempts "user@example.com" 100000
        MAX_LOGIN_ATTEMPTS = true
    ∧ (loginOp "user@example.com" "C0rrect!pw" lockState).1
        = .ok ⟨1, signRefreshToken lockUser 100000⟩ := by
  exact ⟨by decide, rfl⟩

/-- C2 as amended: the `SecurityConfig` counter behaves as a windowed lockout
counter — a recorded failure reads back incremented while
`now - timestamp ≤ LOCKOUT_DURATION` and as zero once the window has elapsed
— but `AuthService.login` never consults it: no login outcome is
`AccountLockedOut`, and a login with the correct password for an existing,
unblocked identity succeeds regardless of recorded failures. -/
theorem lockout_counter_unwired (m : AttemptMap) (idf : String)
    (t t' : Int) (e p : String) (s : AuthState) (u : User) :
    (getAttemptCount (recordFailedAttempt m idf t) idf t'
      = if t' - t > LOCKOUT_DURATION then 0 else getAttemptCount m idf t + 1)
    ∧ ((loginOp e p s).1 ≠ .error .accountLockedOut)
    ∧ (findByEmail s.users e = some u → u.isBlocked = false →
        verifyPassword p u.passwordHash = true →
        (loginOp e p s).1 = .ok ⟨u.id, signRefreshToken u s.now⟩) := by
  refine ⟨?_, ?_, ?_⟩
  · unfold getAttemptCount recordFailedAttempt attemptSet attemptLookup
    rw [find?_filter_append]
    simp [getAttemptCount, attemptLookup]
  · unfold loginOp
    cases hf : findByEmail s.users e with
    | none => simp
    | some u =>
      cases hb : u.isBlocked with
      | true => simp [hb]
      | false =>
        cases hv : verifyPassword p u.passwordHash with
        | false => simp [hb, hv]
        | true => simp [hb, hv, generateTokens]
  · intro hf hb hv
    simp [loginOp, hf, hb, hv, generateTokens]

/-- Witness for the amended C2 at the lockout scenario: one more recorded
failure reads back as 6 inside the window, while the correct-password login
still succeeds. -/
theorem lockout_counter_unwired_witness :
    (getAttemptCount (recordFailedAttempt lockAttempts "user@example.com"
        100000) "user@example.com" 100000
      = if (100000 : Int) - 100000 > LOCKOUT_DURATION then 0
        else getAttemptCount lockAttempts "user@example.com" 100000 + 1)
    ∧ (loginOp "user@example.com" "C0rrect!pw" lockState).1
        = .ok ⟨1, signRefreshToken lockUser 100000⟩ :=
  ⟨(lockout_counter_unwired lockAttempts "user@example.com" 100000 100000
      "user@example.com" "C0rrect!pw" lockState lockUser).1,
   (lockout_counter_unwired lockAttempts "user@example.com" 100000 100000
      "user@example.com" "C0rrect!pw" lockState lockUser).2.2 rfl rfl rfl⟩

/-! ### C10 — each successful flow inserts exactly one 7-day token and
frames the rest -/

/-- C10: a successful `register`, `login` or `refreshToken` appends exactly
one new refresh-token row, expiring `refreshLifetimeMs` (7 days) after
issuance; every previously stored row survives except — for `refreshToken`
only — the rows holding the consumed value. In particular a successful login
leaves every other outstanding token of every identity in place, so several
active refresh tokens coexist for one identity. -/
theorem token_issue_exactly_one :
    (∀ n e p ph ro s out s', registerOp n e p ph ro s = (.ok out, s') →
      s'.tokens = s.tokens
        ++ [⟨out.userId, out.refreshValue, s.now + refreshLifetimeMs, s.now⟩])
    ∧ (∀ e p s out s', loginOp e p s = (.ok out, s') →
      s'.tokens = s.tokens
        ++ [⟨out.userId, out.refreshValue, s.now + refreshLifetimeMs, s.now⟩])
    ∧ (∀ v s out s', refreshTokenOp v s = (.ok out, s') →
      s'.tokens = invalidateToken s.tokens v
        ++ [⟨out.userId, out.refreshValue, s.now + refreshLifetimeMs, s.now⟩]
      ∧ ∀ r ∈ s.tokens, r.token ≠ v → r ∈ s'.tokens) := by
  refine ⟨?_, ?_, ?_⟩
  · intro n e p ph ro s out s' h
    unfold registerOp at h
    cases hf : findByEmail s.users e with
    | some u => rw [hf] at h; simp at h
    | none =>
      rw [hf] at h
      cases hv : validatePassword p with
      | false => simp [hv] at h
      | true =>
        simp only [hv, Bool.not_true, Bool.false_eq_true, if_false] at h
        cases ha : s.users.any (fun u => u.email == e) with
        | true => simp [ha] at h
        | false =>
          simp only [ha, Bool.false_eq_true, if_false, generateTokens,
            Prod.mk.injEq, Except.ok.injEq] at h
          obtain ⟨hout, hs'⟩ := h
          rw [← hs', ← hout]
  · intro e p s out s' h
    unfold loginOp at h
    cases hf : findByEmail s.users e with
    | none => rw [hf] at h; simp at h
    | some u =>
      rw [hf] at h
      cases hb : u.isBlocked with
      | true => simp [hb] at h
      | false =>
        simp only [hb, Bool.false_eq_true, if_false] at h
        cases hv : verifyPassword p u.passwordHash with
        | false => simp [hv] at h
        | true =>
          simp only [hv, Bool.not_true, Bool.false_eq_true, if_false,
            generateTokens, Prod.mk.injEq, Except.ok.injEq] at h
          obtain ⟨hout, hs'⟩ := h
          rw [← hs', ← hout]
  · intro v s out s' h
    unfold refreshTokenOp at h
    cases hr : findByToken s.tokens v with
    | none => rw [hr] at h; simp at h
    | some r =>
      rw [hr] at h
      by_cases hexp : r.expiresAt < s.now
      · simp [hexp] at h
      · simp only [hexp, if_false] at h
        cases hu : findById s.users r.userId with
        | none => rw [hu] at h; simp at h
        | some u =>
          rw [hu] at h
          simp only [generateTokens, Prod.mk.injEq, Except.ok.injEq] at h
          obtain ⟨hout, hs'⟩ := h
          constructor
          · rw [← hs', ← hout]
          · intro r' hr' hne
            rw [← hs']
            exact List.mem_append_left _
              (List.mem_filter.mpr ⟨hr', by simpa using hne⟩)

/-- Witness for C10 at the concrete blocked-owner state: the successful
refresh of `blockedTok` leaves exactly the one new 7-day row. -/
theorem token_issue_exactly_one_witness :
    (refreshTokenOp blockedTok blockedState).2.tokens
      = invalidateToken blockedState.tokens blockedTok
        ++ [⟨1, signRefreshToken blockedUser 1500, 1500 + refreshLifetimeMs, 1500⟩] :=
  (token_issue_exactly_one.2.2 blockedTok blockedState
    ⟨1, signRefreshToken blockedUser 1500⟩
    (refreshTokenOp blockedTok blockedState).2 rfl).1

/-! ### C1 — single use of a rotated refresh value -/

/-- Inversion of a successful `refreshToken` call: the value was on record
and unexpired, the owner was found, and the post-state replaces the consumed
rows by the single row signed at the current second. -/
theorem refreshTokenOp_ok {v : SignedToken} {s : AuthState} {out : TokenPair}
    {s1 : AuthState} (h : refreshTokenOp v s = (.ok out, s1)) :
    ∃ r u, findByToken s.tokens v = some r
      ∧ ¬ r.expiresAt < s.now
      ∧ findById s.users r.userId = some u
      ∧ out = ⟨u.id, signRefreshToken u s.now⟩
      ∧ s1 = { s with
          tokens := invalidateToken s.tokens v
            ++ [⟨u.id, signRefreshToken u s.now,
                 s.now + refreshLifetimeMs, s.now⟩] } := by
  unfold refreshTokenOp at h
  cases hr : findByToken s.tokens v with
  | none => rw [hr] at h; simp at h
  | some r =>
    rw [hr] at h
    by_cases hexp : r.expiresAt < s.now
    · simp [hexp] at h
    · simp only [hexp, if_false] at h
      cases hu : findById s.users r.userId with
      | none => rw [hu] at h; simp at h
      | some u =>
        rw [hu] at h
        simp only [generateTokens, Prod.mk.injEq, Except.ok.injEq] at h
        exact ⟨r, u, rfl, hexp, hu, h.1.symm, h.2.symm⟩

/-- Counterexample to C1: jwt signing is deterministic per payload and
second, so a rotation performed during the consumed value's issuance second
re-mints the byte-identical value after the DELETE cleared it. Concretely,
at `replayState` (still inside `exTok`'s second 0) `refreshToken(exTok)`
succeeds and returns `exTok` itself as the new value, and a subsequent
`refreshToken(exTok)` succeeds again instead of failing `TokenInvalid`. -/
theorem refresh_value_replay_counterexample :
    signRefreshToken exUser 500 = exTok
    ∧ (refreshTokenOp exTok replayState).1 = .ok ⟨1, exTok⟩
    ∧ (refreshTokenOp exTok (refreshTokenOp exTok replayState).2).1
        = .ok ⟨1, exTok⟩ := by
  exact ⟨rfl, rfl, rfl⟩

/-- A `refreshToken` call on a value no longer on record fails
`TokenInvalid`. -/
theorem refreshTokenOp_not_found {v : SignedToken} {s : AuthState}
    (h : findByToken s.tokens v = none) :
    (refreshTokenOp v s).1 = .error .invalidRefreshToken := by
  unfold refreshTokenOp
  rw [h]

/-- Every row a sequential `AuthService` call leaves in the token table was
either already there or was signed during the call's wall-clock second. -/
theorem stepOp_tokens_shape (op : AuthOp) (s : AuthState) :
    ∀ r ∈ (stepOp op s).tokens, r ∈ s.tokens ∨ r.token.iatSec = s.now / 1000 := by
  cases op with
  | register n e p ph ro =>
    simp only [stepOp]
    unfold registerOp generateTokens
    repeat' split
    all_goals first
    | exact fun r hr => Or.inl hr
    | (intro r hr
       rcases List.mem_append.mp hr with hm | hm
       · exact Or.inl hm
       · simp at hm
         subst hm
         exact Or.inr rfl)
  | login e p =>
    simp only [stepOp]
    unfold loginOp generateTokens
    repeat' split
    all_goals first
    | exact fun r hr => Or.inl hr
    | (intro r hr
       rcases List.mem_append.mp hr with hm | hm
       · exact Or.inl hm
       · simp at hm
         subst hm
         exact Or.inr rfl)
  | refresh v =>
    simp only [stepOp]
    unfold refreshTokenOp generateTokens
    repeat' split
    all_goals first
    | exact fun r hr => Or.inl hr
    | exact fun r' hr' => Or.inl (mem_of_mem_invalidateToken hr')
    | (intro r' hr'
       rcases List.mem_append.mp hr' with hm | hm
       · exact Or.inl (mem_of_mem_invalidateToken hm)
       · simp at hm
         subst hm
         exact Or.inr rfl)
  | logout v =>
    simp only [stepOp]
    unfold logoutOp
    exact fun r hr => Or.inl (mem_of_mem_invalidateToken hr)

/-- One step executed outside the wall-clock second recorded in `v` cannot
bring `v` back into the table. -/
theorem stepOp_preserves_gone (op : AuthOp) (s : AuthState) (v : SignedToken)
    (hsec : s.now / 1000 ≠ v.iatSec) (hg : ¬ storedToken s v) :
    ¬ storedToken (stepOp op s) v := by
  rintro ⟨r, hr, htok⟩
  rcases stepOp_tokens_shape op s r hr with hmem | hiat
  · exact hg ⟨r, hmem, htok⟩
  · rw [htok] at hiat
    exact hsec hiat.symm

/-- A whole sequential trace whose steps all run outside the wall-clock
second recorded in `v` keeps `v` out of the table. -/
theorem runOps_preserves_gone (v : SignedToken) (ops : List (Int × AuthOp)) :
    ∀ s : AuthState, (∀ p ∈ ops, p.1 / 1000 ≠ v.iatSec) →
      ¬ storedToken s v → ¬ storedToken (runOps ops s) v := by
  induction ops with
  | nil => exact fun s _ hg => hg
  | cons p rest ih =>
    intro s hops hg
    exact ih (stepOp p.2 { s with now := p.1 })
      (fun q hq => hops q (List.mem_cons_of_mem _ hq))
      (stepOp_preserves_gone p.2 { s with now := p.1 } v
        (hops p (List.mem_cons_self _ _)) hg)

/-- C1 as amended: once a `refreshToken(v)` call has succeeded, every
subsequent `refreshToken(v)` — after any sequential trace of register /
login / refresh / logout calls, at any later time — fails `TokenInvalid`,
provided the rotation and every call of the trace run in a wall-clock second
different from the `iat` second recorded in `v`. (Inside that second,
deterministic jwt signing can re-mint the byte-identical value, as the
counterexample shows.) -/
theorem refresh_value_single_use (s : AuthState) (v : SignedToken)
    (out : TokenPair) (s1 : AuthState)
    (hsucc : refreshTokenOp v s = (.ok out, s1))
    (hsec : s.now / 1000 ≠ v.iatSec)
    (ops : List (Int × AuthOp))
    (hops : ∀ p ∈ ops, p.1 / 1000 ≠ v.iatSec) (t : Int) :
    (refreshTokenOp v { runOps ops s1 with now := t }).1
      = .error .invalidRefreshToken := by
  obtain ⟨r, u, hr, hexp, hu, hout, hs1⟩ := refreshTokenOp_ok hsucc
  have hg1 : ¬ storedToken s1 v := by
    rw [hs1]
    rintro ⟨r', hr', htok'⟩
    rcases List.mem_append.mp hr' with hm | hm
    · exact token_ne_of_mem_invalidateToken hm htok'
    · simp at hm
      rw [hm] at htok'
      have hmint : signRefreshToken u s.now = v := htok'
      have hsc : s.now / 1000 = v.iatSec := congrArg SignedToken.iatSec hmint
      exact hsec hsc
  have hrun := runOps_preserves_gone v ops s1 hops hg1
  have hnone : findByToken (runOps ops s1).tokens v = none := by
    unfold findByToken
    rw [List.find?_eq_none]
    intro r' hm hbeq
    exact hrun ⟨r', hm, by simpa using hbeq⟩
  exact refreshTokenOp_not_found hnone

/-- Witness for the amended C1: a concrete successful rotation of `exTok` at
time 1500 (second 1, outside `exTok`'s second 0), followed by a login and a
logout at seconds 2 and 3, after which a second `refreshToken(exTok)` fails
`TokenInvalid`. -/
theorem refresh_value_single_use_witness :
    (refreshTokenOp exTok
        { runOps [(2500, .login "alice@x.com" "Password1!"), (3000, .logout exTok)]
            (refreshTokenOp exTok exState).2 with now := 5000 }).1
      = .error .invalidRefreshToken :=
  refresh_value_single_use exState exTok ⟨1, signRefreshToken exUser 1500⟩
    (refreshTokenOp exTok exState).2 rfl (by decide)
    [(2500, .login "alice@x.com" "Password1!"), (3000, .logout exTok)]
    (by decide) 5000

end CoursesBackend
